import Mathlib

/-!
Shallow embedding of the dividend-screener pipeline
(`screener.py`, `src/evaluator.py`, `src/portfolio_actions.py`,
`src/portfolio_ingest.py`).

Machine floats carried through the Python code are modelled as rationals
(`ℚ`); a raw provider value, which may be absent (`None`/NaN) or a
non-numeric string, is modelled by `RawValue`.  All functions are
translated directly from the Python source; the one spec-side definition
(`claimSignal`) is clearly marked as such.
-/

/-- A raw provider field before any numeric coercion: either absent
(`None`, NaN, or the pandas missing marker), a plain number, or a value
that fails numeric coercion (an unparsable string, infinity, ...). -/
inductive RawValue where
  | absent : RawValue
  | num : ℚ → RawValue
  | nonNumeric : RawValue
deriving DecidableEq

namespace Screener

/-- `screener.py::_safe_float`: best-effort numeric coercion.  `None`,
NaN/inf, empty and sentinel strings, and unparsable strings all map to
`None`; genuine numbers (including numeric strings, folded into
`RawValue.num`) pass through. -/
def safe_float (x : RawValue) : Option ℚ :=
  match x with
  | RawValue.absent => none
  | RawValue.num q => some q
  | RawValue.nonNumeric => none

end Screener

namespace Evaluator

/-- `src/evaluator.py::safe`: `pd.isna(v) → None`, else `float(v)`,
with any coercion failure caught and mapped to `None`. -/
def safe (v : RawValue) : Option ℚ :=
  match v with
  | RawValue.absent => none
  | RawValue.num q => some q
  | RawValue.nonNumeric => none

/-- `score_row`, yield block (lines 42-49): `if y:` is Python
truthiness on an optional float, i.e. "present and nonzero". -/
def yield_points (y : Option ℚ) : ℤ :=
  match y with
  | some v => if v ≠ 0 then (if 2 ≤ v ∧ v ≤ 6 then 15 else if 6 < v then 10 else 0) else 0
  | none => 0

/-- `score_row`, payout block (lines 51-60). -/
def payout_points (p : Option ℚ) : ℤ :=
  match p with
  | some v => if v ≠ 0 then (if v < 60 then 20 else if v ≤ 90 then 10 else -20) else 0
  | none => 0

/-- `score_row`, P/E block (lines 62-67). -/
def pe_points (pe : Option ℚ) : ℤ :=
  match pe with
  | some v => if v ≠ 0 then (if v < 20 then 15 else if v ≤ 30 then 5 else 0) else 0
  | none => 0

/-- `score_row`, dividend-class block (lines 69-78). -/
def class_points (cls : String) : ℤ :=
  if cls = "King" then 25
  else if cls = "Aristocrat" then 20
  else if cls = "Contender" then 10
  else 0

/-- `src/evaluator.py::score_row`: ad-hoc point system over yield,
payout ratio, P/E and dividend class, accumulated block by block and
clamped to [0, 100] at the end.  The returned reasons string is
irrelevant to the claims and omitted. -/
def score_row (ry rp rpe : RawValue) (cls : String) : ℤ :=
  max 0 (min 100
    (yield_points (safe ry) + payout_points (safe rp) + pe_points (safe rpe) + class_points cls))

/-- `src/evaluator.py::signal`: threshold ladder on the score alone. -/
def signal (score : ℤ) : String :=
  if score ≥ 85 then "GOLD"
  else if score ≥ 70 then "BUY"
  else if score ≥ 55 then "HOLD"
  else "WATCH"

/-- Spec-side definition, for refinement comparison only (not from the
source): the claim's signal ladder, in which the top tier additionally
requires `Upside ≥ 10%` (upside in percent). -/
def claimSignal (score : ℤ) (upside : ℚ) : String :=
  if score ≥ 85 ∧ upside ≥ 10 then "GOLD"
  else if score ≥ 70 then "BUY"
  else if score ≥ 55 then "HOLD"
  else "WATCH"

end Evaluator

namespace Screener

/-- `screener.py::_normalize_dividend_yield`: returns the yield as a
fraction.  Absent or negative input gives `None`; values ≤ 0.30 are
taken to already be fractions; values in (0.30, 100] are percentages
(divide by 100); larger values are basis-point-squared-style junk
(divide by 10000). -/
def normalize_dividend_yield (raw : RawValue) : Option ℚ :=
  match safe_float raw with
  | none => none
  | some v =>
    if v < 0 then none
    else if v ≤ 30/100 then some v
    else if v ≤ 100 then some (v / 100)
    else some (v / 10000)

/-- `screener.py::_sanity_div_yield`: final gate; `None` for absent or
negative yields and for anything above 40%. -/
def sanity_div_yield (y : Option ℚ) : Option ℚ :=
  match y with
  | none => none
  | some v =>
    if v < 0 then none
    else if v > 40/100 then none
    else some v

/-- Composition used at the fetch site
(`screener.py::_fetch_one`, line 397):
`_sanity_div_yield(_normalize_dividend_yield(raw_y))`. -/
def yield_pipeline (raw : RawValue) : Option ℚ :=
  sanity_div_yield (normalize_dividend_yield raw)

/-- `screener.py::_calc_upside`: `None` when either operand is absent
or the price is nonpositive, else `target / price - 1`. -/
def calc_upside (price target : Option ℚ) : Option ℚ :=
  match price, target with
  | none, _ => none
  | _, none => none
  | some p, some t => if p ≤ 0 then none else some (t / p - 1)

end Screener

/-- C1: For every input row — whatever the values or absence of yield,
payout ratio, P/E and dividend class — `score_row` returns a score in
[0, 100]. -/
theorem c1_score_bounded (ry rp rpe : RawValue) (cls : String) :
    0 ≤ Evaluator.score_row ry rp rpe cls ∧ Evaluator.score_row ry rp rpe cls ≤ 100 := by
  unfold Evaluator.score_row
  constructor
  · exact le_max_left 0 _
  · exact max_le (by norm_num) (min_le_left 100 _)

/-- C2 counterexample: at score 85 the code's `signal` returns GOLD with
no condition on upside, whereas the claim's ladder demands upside ≥ 10%
for GOLD and would classify (score 85, upside 0) as BUY. -/
theorem c2_counterexample :
    Evaluator.signal 85 = "GOLD" ∧ Evaluator.claimSignal 85 0 = "BUY" ∧
      Evaluator.signal 85 ≠ Evaluator.claimSignal 85 0 := by
  refine ⟨rfl, ?_, ?_⟩ <;> simp [Evaluator.signal, Evaluator.claimSignal] <;> decide

/-- C2 amended: `signal` is a threshold ladder on the score alone —
GOLD iff score ≥ 85 (no upside condition), BUY iff 70 ≤ score < 85,
HOLD iff 55 ≤ score < 70, WATCH iff score < 55. -/
theorem c2_signal_thresholds (s : ℤ) :
    (Evaluator.signal s = "GOLD" ↔ 85 ≤ s) ∧
    (Evaluator.signal s = "BUY" ↔ 70 ≤ s ∧ s < 85) ∧
    (Evaluator.signal s = "HOLD" ↔ 55 ≤ s ∧ s < 70) ∧
    (Evaluator.signal s = "WATCH" ↔ s < 55) := by
  unfold Evaluator.signal
  split_ifs with h1 h2 h3 <;>
    refine ⟨?_, ?_, ?_, ?_⟩ <;> simp_all <;> omega

/-- C3 counterexample: the raw value 1 has `|v| ≤ 1.5`, so the claim
says the normalizer returns it unchanged, but the code's threshold for
"already a fraction" is 0.30, so 1 is divided by 100. -/
theorem c3_counterexample :
    Screener.normalize_dividend_yield (RawValue.num 1) = some (1/100) ∧
      Screener.normalize_dividend_yield (RawValue.num 1) ≠ some 1 := by
  constructor <;> norm_num [Screener.normalize_dividend_yield, Screener.safe_float]

/-- C3 amended: the normalizer returns `v` unchanged exactly on
`0 ≤ v ≤ 0.30` (not `|v| ≤ 1.5`); values in (0.30, 100] are divided by
100, values above 100 by 10000, and negative values give `None`. -/
theorem c3_normalize_cases (v : ℚ) :
    (v < 0 → Screener.normalize_dividend_yield (RawValue.num v) = none) ∧
    (0 ≤ v → v ≤ 30/100 → Screener.normalize_dividend_yield (RawValue.num v) = some v) ∧
    (30/100 < v → v ≤ 100 → Screener.normalize_dividend_yield (RawValue.num v) = some (v / 100)) ∧
    (100 < v → Screener.normalize_dividend_yield (RawValue.num v) = some (v / 10000)) := by
  unfold Screener.normalize_dividend_yield Screener.safe_float
  refine ⟨fun h => ?_, fun h h2 => ?_, fun h h2 => ?_, fun h => ?_⟩ <;>
    simp only [] <;> split_ifs <;> first | rfl | linarith

/-- Witness for C3 amended at `v = 1`: normalization divides by 100. -/
theorem c3_normalize_cases_witness :
    Screener.normalize_dividend_yield (RawValue.num 1) = some (1/100) :=
  (c3_normalize_cases 1).2.2.1 (by norm_num) (by norm_num)

/-- The sanity gate only lets values in [0, 0.40] through. -/
lemma sanity_div_yield_mem (o : Option ℚ) (y : ℚ)
    (h : Screener.sanity_div_yield o = some y) : 0 ≤ y ∧ y ≤ 40/100 := by
  rcases o with _ | v
  · exact absurd h (by simp [Screener.sanity_div_yield])
  · simp only [Screener.sanity_div_yield] at h
    split_ifs at h with h1 h2 <;> injection h with h3 <;> subst h3 <;>
      exact ⟨by linarith, by linarith⟩

/-- C4: the yield pipeline (normalize then sanity gate) is total and
never yields more than 0.40: absent input gives `None`, non-numeric
input gives `None`, negative input gives `None`, and every value it
does return lies in [0, 0.40]. -/
theorem c4_yield_pipeline (raw : RawValue) :
    Screener.yield_pipeline RawValue.absent = none ∧
    Screener.yield_pipeline RawValue.nonNumeric = none ∧
    (∀ q : ℚ, q < 0 → Screener.yield_pipeline (RawValue.num q) = none) ∧
    (∀ y : ℚ, Screener.yield_pipeline raw = some y → 0 ≤ y ∧ y ≤ 40/100) := by
  refine ⟨rfl, rfl, fun q hq => ?_, fun y hy => ?_⟩
  · simp only [Screener.yield_pipeline, Screener.normalize_dividend_yield, Screener.safe_float,
      Screener.sanity_div_yield]
    split_ifs <;> first | rfl | linarith
  · exact sanity_div_yield_mem _ y hy

/-- Witness for C4 at raw value 5 (a percentage): the pipeline returns
0.05, which lies in [0, 0.40]. -/
theorem c4_yield_pipeline_witness :
    0 ≤ (1/20 : ℚ) ∧ (1/20 : ℚ) ≤ 40/100 :=
  (c4_yield_pipeline (RawValue.num 5)).2.2.2 (1/20)
    (by norm_num [Screener.yield_pipeline, Screener.normalize_dividend_yield,
      Screener.safe_float, Screener.sanity_div_yield])

/-- C5: for positive price and positive target, `calc_upside` returns
exactly `target / price - 1`; it returns `None` whenever an operand is
absent or the price is nonpositive. -/
theorem c5_calc_upside (p t : ℚ) (hp : 0 < p) (ht : 0 < t) :
    Screener.calc_upside (some p) (some t) = some (t / p - 1) ∧
    (∀ x : Option ℚ, Screener.calc_upside none x = none) ∧
    (∀ x : Option ℚ, Screener.calc_upside x none = none) ∧
    (∀ q : ℚ, q ≤ 0 → Screener.calc_upside (some q) (some t) = none) := by
  refine ⟨?_, fun x => ?_, fun x => ?_, fun q hq => ?_⟩
  · simp only [Screener.calc_upside]
    rw [if_neg (not_le.mpr hp)]
  · cases x <;> rfl
  · cases x <;> rfl
  · simp only [Screener.calc_upside]
    rw [if_pos hq]

/-- Witness for C5 at price 2, target 3: upside is 1/2. -/
theorem c5_calc_upside_witness :
    Screener.calc_upside (some 2) (some 3) = some ((3:ℚ) / 2 - 1) :=
  (c5_calc_upside 2 3 (by norm_num) (by norm_num)).1

/-- The yield block contributes between 0 and 15 points. -/
lemma yield_points_bounds (y : Option ℚ) :
    0 ≤ Evaluator.yield_points y ∧ Evaluator.yield_points y ≤ 15 := by
  rcases y with _ | v
  · exact ⟨le_refl 0, by decide⟩
  · simp only [Evaluator.yield_points]
    split_ifs <;> omega

/-- The P/E block contributes between 0 and 15 points. -/
lemma pe_points_bounds (pe : Option ℚ) :
    0 ≤ Evaluator.pe_points pe ∧ Evaluator.pe_points pe ≤ 15 := by
  rcases pe with _ | v
  · exact ⟨le_refl 0, by decide⟩
  · simp only [Evaluator.pe_points]
    split_ifs <;> omega

/-- The dividend-class block contributes between 0 and 25 points. -/
lemma class_points_bounds (cls : String) :
    0 ≤ Evaluator.class_points cls ∧ Evaluator.class_points cls ≤ 25 := by
  simp only [Evaluator.class_points]
  split_ifs <;> omega

/-- A payout ratio strictly between 0 and 60 scores exactly 20 points. -/
lemma payout_points_mid (q : ℚ) (h0 : 0 < q) (h60 : q < 60) :
    Evaluator.payout_points (some q) = 20 := by
  simp only [Evaluator.payout_points]
  rw [if_pos (ne_of_gt h0), if_pos h60]

/-- C10: `score_row` treats a field value of exactly 0 like an absent
field (Python truthiness): a payout ratio, yield, or P/E of exactly 0
contributes no points, while a payout ratio strictly between 0 and 60
contributes exactly +20 over the payout-absent score. -/
theorem c10_zero_as_absent (ry rp rpe : RawValue) (cls : String) :
    Evaluator.score_row ry (RawValue.num 0) rpe cls
        = Evaluator.score_row ry RawValue.absent rpe cls ∧
    Evaluator.score_row (RawValue.num 0) rp rpe cls
        = Evaluator.score_row RawValue.absent rp rpe cls ∧
    Evaluator.score_row ry rp (RawValue.num 0) cls
        = Evaluator.score_row ry rp RawValue.absent cls ∧
    (∀ q : ℚ, 0 < q → q < 60 →
      Evaluator.score_row ry (RawValue.num q) rpe cls
        = Evaluator.score_row ry RawValue.absent rpe cls + 20) := by
  refine ⟨?_, ?_, ?_, fun q h0 h60 => ?_⟩
  · simp [Evaluator.score_row, Evaluator.safe, Evaluator.payout_points]
  · simp [Evaluator.score_row, Evaluator.safe, Evaluator.yield_points]
  · simp [Evaluator.score_row, Evaluator.safe, Evaluator.pe_points]
  · have hy := yield_points_bounds (Evaluator.safe ry)
    have hpe := pe_points_bounds (Evaluator.safe rpe)
    have hcls := class_points_bounds cls
    have hp : Evaluator.payout_points (Evaluator.safe (RawValue.num q)) = 20 := by
      simp only [Evaluator.safe]
      exact payout_points_mid q h0 h60
    have hpn : Evaluator.payout_points (Evaluator.safe RawValue.absent) = 0 := rfl
    simp only [Evaluator.score_row, hp, hpn]
    omega

/-- Witness for C10 at yield 3, payout 30, P/E 10, class "King":
score with the payout present is 75 = 55 + 20. -/
theorem c10_zero_as_absent_witness :
    Evaluator.score_row (RawValue.num 3) (RawValue.num 30) (RawValue.num 10) "King"
      = Evaluator.score_row (RawValue.num 3) RawValue.absent (RawValue.num 10) "King" + 20 :=
  (c10_zero_as_absent (RawValue.num 3) RawValue.absent (RawValue.num 10) "King").2.2.2
    30 (by norm_num) (by norm_num)

namespace PortfolioActions

/-- Rule set for `src/portfolio_actions.py::decide_actions`, with the
defaults read out of `rules.get(..., default)` (lines 133-138). -/
structure Rules where
  max_position_weight : ℚ
  trim_weight : ℚ
  add_weight : ℚ
  min_upside_buy : ℚ
  min_score_buy : ℚ
  avoid_if_no_data : Bool

/-- The defaults used when `rules` has no overriding entries. -/
def defaultRules : Rules :=
  { max_position_weight := 10/100
    trim_weight := 7/100
    add_weight := 2/100
    min_upside_buy := 5/100
    min_score_buy := 60
    avoid_if_no_data := true }

/-- `src/portfolio_actions.py::pick_action` (lines 142-169), the per-row
classifier inside `decide_actions`.  Early Python `return`s become
nested `if`s.  All four row fields have already been coerced to floats
with default 0.0 by `decide_actions`, so they are plain rationals. -/
def pick_action (r : Rules) (ownedShares w score upside : ℚ) : String :=
  let owned := ownedShares > 0
  let has_signal := score ≠ 0 ∨ upside ≠ 0
  if owned ∧ w ≥ r.trim_weight then "TRIM"
  else if owned ∧ w ≥ r.max_position_weight then "TRIM"
  else if owned ∧ w < r.add_weight ∧ has_signal then "ADD"
  else if ¬owned then
    (if r.avoid_if_no_data ∧ ¬has_signal then "AVOID"
     else if score ≥ r.min_score_buy ∨ upside ≥ r.min_upside_buy then "BUY"
     else "HOLD")
  else "HOLD"

/-- Weight part of `src/portfolio_actions.py::apply_portfolio_context`
(lines 79-90): each row contributes `OwnedValue = OwnedShares * Price`;
the Weight column is `OwnedValue / total` when the total is positive and
0.0 otherwise.  A row is `(OwnedShares, Price)`. -/
def apply_portfolio_context (rows : List (ℚ × ℚ)) : List ℚ :=
  let ownedValues := rows.map (fun r => r.1 * r.2)
  let total := ownedValues.sum
  if total > 0 then ownedValues.map (fun v => v / total)
  else ownedValues.map (fun _ => 0)

end PortfolioActions

/-- C6: under the default rules, a row with no owned shares and a score
at or above the buy threshold (60) is assigned BUY, and a held row
(shares > 0) whose weight is at or above the trim threshold (0.07) is
assigned TRIM regardless of score and upside. -/
theorem c6_buy_and_trim (w score upside : ℚ) :
    (PortfolioActions.defaultRules.min_score_buy ≤ score →
      PortfolioActions.pick_action PortfolioActions.defaultRules 0 w score upside = "BUY") ∧
    (∀ shares : ℚ, 0 < shares → PortfolioActions.defaultRules.trim_weight ≤ w →
      PortfolioActions.pick_action PortfolioActions.defaultRules shares w score upside = "TRIM") := by
  constructor
  · intro hscore
    have hs : score ≠ 0 := by
      have : (0:ℚ) < 60 := by norm_num
      have h60 : (60:ℚ) ≤ score := hscore
      exact ne_of_gt (lt_of_lt_of_le this h60)
    simp only [PortfolioActions.pick_action, PortfolioActions.defaultRules]
    have h60 : (60:ℚ) ≤ score := hscore
    rw [if_neg (by simp), if_neg (by simp), if_neg (by simp), if_pos (by simp),
      if_neg (by simp [hs]), if_pos (Or.inl h60)]
  · intro shares hsh hw
    simp only [PortfolioActions.pick_action, PortfolioActions.defaultRules]
    rw [if_pos ⟨hsh, hw⟩]

/-- Witness for C6: with score 60 and no shares the action is BUY; with
1 share at weight 0.07 it is TRIM. -/
theorem c6_buy_and_trim_witness :
    PortfolioActions.pick_action PortfolioActions.defaultRules 0 0 60 0 = "BUY" ∧
    PortfolioActions.pick_action PortfolioActions.defaultRules 1 (7/100) 60 0 = "TRIM" :=
  ⟨(c6_buy_and_trim 0 60 0).1 (by norm_num [PortfolioActions.defaultRules]),
   (c6_buy_and_trim (7/100) 60 0).2 1 (by norm_num)
     (by norm_num [PortfolioActions.defaultRules])⟩

/-- C7: for any rule set, a held row (shares > 0) is never assigned
AVOID — the action is one of TRIM, ADD or HOLD. -/
theorem c7_held_never_avoid (r : PortfolioActions.Rules) (shares w score upside : ℚ)
    (h : 0 < shares) :
    (PortfolioActions.pick_action r shares w score upside = "TRIM" ∨
     PortfolioActions.pick_action r shares w score upside = "ADD" ∨
     PortfolioActions.pick_action r shares w score upside = "HOLD") ∧
    PortfolioActions.pick_action r shares w score upside ≠ "AVOID" := by
  simp only [PortfolioActions.pick_action]
  have howned : shares > 0 := h
  constructor
  · split_ifs <;> simp_all
  · split_ifs <;> simp_all

/-- Witness for C7 at one held share, weight 0, score 0, upside 0. -/
theorem c7_held_never_avoid_witness :
    PortfolioActions.pick_action PortfolioActions.defaultRules 1 0 0 0 ≠ "AVOID" :=
  (c7_held_never_avoid PortfolioActions.defaultRules 1 0 0 0 (by norm_num)).2

/-- C9: the weight column equals each row's OwnedValue divided by the
total OwnedValue whenever that total is positive, and is identically 0
when the total is 0 — no division happens in the zero-total case. -/
theorem c9_weights (rows : List (ℚ × ℚ)) :
    (0 < (rows.map (fun r => r.1 * r.2)).sum →
      PortfolioActions.apply_portfolio_context rows =
        (rows.map (fun r => r.1 * r.2)).map
          (fun v => v / (rows.map (fun r => r.1 * r.2)).sum)) ∧
    ((rows.map (fun r => r.1 * r.2)).sum = 0 →
      ∀ w ∈ PortfolioActions.apply_portfolio_context rows, w = 0) := by
  constructor
  · intro hpos
    simp only [PortfolioActions.apply_portfolio_context]
    rw [if_pos hpos]
  · intro hzero w hw
    simp only [PortfolioActions.apply_portfolio_context] at hw
    rw [if_neg (by rw [hzero]; exact lt_irrefl 0)] at hw
    rcases List.mem_map.mp hw with ⟨v, _, hv⟩
    exact hv.symm

/-- Witness for C9 on two equal positions: each weight is 1/2. -/
theorem c9_weights_witness :
    PortfolioActions.apply_portfolio_context [(1, 2), (1, 2)] = [1/2, 1/2] := by
  have h := (c9_weights [(1, 2), (1, 2)]).1 (by norm_num)
  rw [h]
  norm_num

namespace PortfolioIngest

/-- Python `str.strip()` on the character list: drop leading and
trailing whitespace. -/
def trimChars (l : List Char) : List Char :=
  ((l.dropWhile Char.isWhitespace).reverse.dropWhile Char.isWhitespace).reverse

/-- `src/portfolio_ingest.py::_norm_col`:
`str(s).strip().lower().replace(" ", "_")`, carried out on the
character list (the replaced pattern is the single space character, so
replacement is a character map). -/
def norm_col (s : String) : String :=
  String.mk (((trimChars s.data).map Char.toLower).map (fun c => if c = ' ' then '_' else c))

/-- Python's `key in k` substring test, on the underlying character
lists. -/
def strContains (hay needle : String) : Bool :=
  hay.data.tails.any (fun t => needle.data.isPrefixOf t)

/-- The dict comprehension `{ _norm_col(c): c for c in df.columns }`:
keys keep their first-insertion position, a duplicate key keeps the
last value. -/
def dictOf (cols : List String) : List (String × String) :=
  cols.foldl (fun acc c =>
    let k := norm_col c
    if acc.any (fun p => p.1 == k) then acc.map (fun p => if p.1 == k then (k, c) else p)
    else acc ++ [(k, c)]) []

/-- `src/portfolio_ingest.py::_find_col`: exact normalized match first,
then a pass allowing the candidate to be a substring of a column key. -/
def find_col (cols candidates : List String) : Option String :=
  let d := dictOf cols
  match candidates.findSome? (fun cand => (d.find? (fun p => p.1 == norm_col cand)).map (fun p => p.2)) with
  | some orig => some orig
  | none =>
    candidates.findSome? (fun cand =>
      let key := norm_col cand
      d.findSome? (fun p =>
        if p.1 == key then some p.2
        else if strContains p.1 key then some p.2
        else none))

/-- Result of `src/portfolio_ingest.py::_detect_format`. -/
inductive SnowFormat where
  | transactions : SnowFormat
  | holdings : SnowFormat
  | unknown : SnowFormat
deriving DecidableEq

/-- `src/portfolio_ingest.py::_detect_format`, deciding on the set of
normalized column names. -/
def detect_format (cols : List String) : SnowFormat :=
  let s := cols.map norm_col
  if (s.contains "event" && s.contains "quantity") && (s.contains "symbol" || s.contains "ticker") then
    SnowFormat.transactions
  else if (s.contains "shares" || s.contains "share" || s.contains "antal") &&
      (s.contains "holding" || s.contains "symbol" || s.contains "ticker") then
    SnowFormat.holdings
  else if s.contains "holding" && (s.contains "shares" || s.contains "share" || s.contains "antal") then
    SnowFormat.holdings
  else if s.contains "holding" && (s.contains "current_value" || s.contains "share_price" || s.contains "kurs") then
    SnowFormat.holdings
  else SnowFormat.unknown

/-- `src/portfolio_ingest.py::_positions_from_transactions`, reduced to
its control flow on the column set: it raises exactly when the symbol,
event, or quantity column cannot be located (lines 91-98); the
subsequent row aggregation never raises. -/
def positions_from_transactions (cols : List String) : Except String Unit :=
  let sym := find_col cols ["Symbol", "Ticker"]
  let evt := find_col cols ["Event"]
  let qty := find_col cols ["Quantity", "Qty", "Antal"]
  if sym.isNone || evt.isNone || qty.isNone then
    Except.error "Snowball transactions format missing required columns."
  else Except.ok ()

/-- `src/portfolio_ingest.py::_positions_from_holdings`, reduced to its
control flow on the column set: it raises exactly when no
ticker/holding column or no shares/quantity column (including the
`Shares_in_portfolio` alternates) can be located (lines 131-140). -/
def positions_from_holdings (cols : List String) : Except String Unit :=
  let sym := find_col cols ["Holding", "Symbol", "Ticker", "ISIN"]
  let shares0 := find_col cols ["Shares", "Share", "Antal", "Quantity", "Units"]
  if sym.isNone then
    Except.error "Snowball holdings format missing ticker/holding column."
  else
    let shares := if shares0.isNone then find_col cols ["Share_in_portfolio", "Shares_in_portfolio"] else shares0
    if shares.isNone then
      Except.error "Snowball holdings format missing shares/quantity column."
    else Except.ok ()

/-- Observable outcome of `load_positions_from_snowball`: the empty
fallback dataframe, a successfully parsed position table, or a raised
exception. -/
inductive LoadOutcome where
  | emptyResult : LoadOutcome
  | parsed : LoadOutcome
  | errored : LoadOutcome
deriving DecidableEq

/-- `src/portfolio_ingest.py::load_positions_from_snowball` (lines
155-189): empty result when the file is missing or parses to an empty
table; otherwise dispatch on the detected format, with an uncaught
exception from the chosen extractor propagating, and — for an unknown
format — a guess-both fallback that raises only if both extractors
raise. -/
def load_positions_from_snowball (fExists fEmpty : Bool) (cols : List String) : LoadOutcome :=
  if fExists = false then LoadOutcome.emptyResult
  else if fEmpty = true then LoadOutcome.emptyResult
  else
    match detect_format cols with
    | SnowFormat.transactions =>
      match positions_from_transactions cols with
      | Except.ok _ => LoadOutcome.parsed
      | Except.error _ => LoadOutcome.errored
    | SnowFormat.holdings =>
      match positions_from_holdings cols with
      | Except.ok _ => LoadOutcome.parsed
      | Except.error _ => LoadOutcome.errored
    | SnowFormat.unknown =>
      match positions_from_holdings cols with
      | Except.ok _ => LoadOutcome.parsed
      | Except.error _ =>
        match positions_from_transactions cols with
        | Except.ok _ => LoadOutcome.parsed
        | Except.error _ => LoadOutcome.errored

end PortfolioIngest

/-- C8: when the holdings file exists and parses to a non-empty table
whose column set is accepted by neither the holdings extractor nor the
transactions extractor, loading positions raises (errored outcome) and
in particular does not silently return the empty position set. -/
theorem c8_unrecognized_raises (cols : List String)
    (hh : ∀ u, PortfolioIngest.positions_from_holdings cols ≠ Except.ok u)
    (ht : ∀ u, PortfolioIngest.positions_from_transactions cols ≠ Except.ok u) :
    PortfolioIngest.load_positions_from_snowball true false cols = PortfolioIngest.LoadOutcome.errored ∧
    PortfolioIngest.load_positions_from_snowball true false cols ≠ PortfolioIngest.LoadOutcome.emptyResult := by
  have h : PortfolioIngest.load_positions_from_snowball true false cols
      = PortfolioIngest.LoadOutcome.errored := by
    unfold PortfolioIngest.load_positions_from_snowball
    rw [if_neg (by decide), if_neg (by decide)]
    rcases hH : PortfolioIngest.positions_from_holdings cols with e | u
    case error =>
      rcases hT : PortfolioIngest.positions_from_transactions cols with e2 | u2
      case error =>
        cases PortfolioIngest.detect_format cols <;> simp [hH, hT]
      case ok => exact absurd hT (ht u2)
    case ok => exact absurd hH (hh u)
  exact ⟨h, by rw [h]; decide⟩

/-- Witness for C8: a table with columns `Foo, Bar` is accepted by
neither extractor, and loading it raises. -/
theorem c8_unrecognized_raises_witness :
    PortfolioIngest.load_positions_from_snowball true false ["Foo", "Bar"]
      = PortfolioIngest.LoadOutcome.errored ∧
    PortfolioIngest.load_positions_from_snowball true false ["Foo", "Bar"]
      ≠ PortfolioIngest.LoadOutcome.emptyResult :=
  c8_unrecognized_raises ["Foo", "Bar"]
    (fun u => by
      cases u
      intro hc
      rw [show PortfolioIngest.positions_from_holdings ["Foo", "Bar"]
          = Except.error "Snowball holdings format missing ticker/holding column." from rfl] at hc
      cases hc)
    (fun u => by
      cases u
      intro hc
      rw [show PortfolioIngest.positions_from_transactions ["Foo", "Bar"]
          = Except.error "Snowball transactions format missing required columns." from rfl] at hc
      cases hc)
